import Mathlib

/-!
# Verification of the bcskins-inspect inspection gateway

Shallow embedding of the parts of the repository that the claims C1–C10
concern: `InspectService` (src/modules/inspect/inspect.service.ts), the
Mongoose `Asset`/`History` schemas (src/schemas), and the worker-thread
`BotWorker` (the unnamed worker file).  JavaScript numbers are modelled as
`JsNum` (a rational value paired with its `toString` rendering); `null`
and absent fields are modelled as `Option.none`; machine words inside the
SHA-1 computation are `Nat`s reduced `% 2 ^ 32`.
-/

set_option maxRecDepth 10000

/-- A JavaScript number as it occurs in inspect results: its numeric value
(for comparisons and truthiness) together with its `Number.prototype.toString`
rendering (used when the value is interpolated into the hashed string).
`NaN` does not occur in decoded inspect results and is outside the model. -/
structure JsNum where
  val : ℚ
  render : String
deriving DecidableEq, Repr

/-- JS truthiness of a number: `0` and `-0` are falsy, everything else truthy. -/
def JsNum.truthy (n : JsNum) : Bool := n.val ≠ 0

/-- A JS number renders as the literal `"0"` exactly when its value is zero
(`(0).toString() = "-0".toString() = "0"`); `NaN` is excluded from the model. -/
def JsNum.WellRendered (n : JsNum) : Prop := n.val = 0 → n.render = "0"

/-- Convenient constructor for integral JS numbers rendered in decimal. -/
def jsNat (n : Nat) : JsNum := ⟨(n : ℚ), toString n⟩

/-- A dynamically typed JavaScript value, as far as the inspect service
inspects one: `undefined`, a boolean, a number, or a string. -/
inductive JsVal where
  | undef : JsVal
  | bool : Bool → JsVal
  | num : JsNum → JsVal
  | str : String → JsVal
deriving DecidableEq, Repr

/-- JS `toString` on the values the service stringifies. -/
def JsVal.jsToString : JsVal → String
  | .undef => "undefined"
  | .bool b => if b then "true" else "false"
  | .num n => n.render
  | .str s => s

/-- JS truthiness. -/
def JsVal.truthy : JsVal → Bool
  | .undef => false
  | .bool b => b
  | .num n => n.truthy
  | .str s => s ≠ ""

/-- JS strict equality `===` between a value and a string. -/
def JsVal.strictEqStr : JsVal → String → Bool
  | .str t, s => t = s
  | _, _ => false

/-- Model of `parseInt(s, 10)` restricted to the way the service uses it: the longest
leading run of decimal digits (after nothing else — the ids handed to it are
plain digit strings); `none` models the `NaN` result. -/
def jsParseInt (s : String) : Option Nat :=
  let digits := s.data.takeWhile Char.isDigit
  if digits.isEmpty then none
  else some (digits.foldl (fun a c => a * 10 + (c.toNat - 48)) 0)

/-! ## SHA-1 (crypto `createHash('sha1')`), over byte lists, words as `Nat % 2^32` -/

namespace Sha1

/-- Left-rotate a 32-bit word (represented as a `Nat < 2^32`) by `n` bits. -/
def rotl (n x : Nat) : Nat := ((x <<< n) ||| (x >>> (32 - n))) % 2 ^ 32

/-- Bitwise complement within 32 bits. -/
def bnot (x : Nat) : Nat := x ^^^ 0xFFFFFFFF

/-- The round function `f_t`. -/
def roundF (t b c d : Nat) : Nat :=
  if t < 20 then (b &&& c) ||| (bnot b &&& d)
  else if t < 40 then b ^^^ c ^^^ d
  else if t < 60 then (b &&& c) ||| (b &&& d) ||| (c &&& d)
  else b ^^^ c ^^^ d

/-- The round constant `K_t`. -/
def roundK (t : Nat) : Nat :=
  if t < 20 then 0x5A827999
  else if t < 40 then 0x6ED9EBA1
  else if t < 60 then 0x8F1BBCDC
  else 0xCA62C1D6

/-- Pad a byte message: append `0x80`, zero bytes to 56 mod 64, then the
bit length as 8 big-endian bytes. -/
def pad (msg : List Nat) : List Nat :=
  let len := msg.length
  let zeros := (119 - len % 64) % 64
  msg ++ [0x80] ++ List.replicate zeros 0 ++
    (List.range 8).map (fun i => (len * 8) >>> ((7 - i) * 8) % 256)

/-- Big-endian grouping of bytes into 32-bit words. -/
def bytesToWords : List Nat → List Nat
  | a :: b :: c :: d :: rest =>
      (a * 2 ^ 24 + b * 2 ^ 16 + c * 2 ^ 8 + d) :: bytesToWords rest
  | _ => []

/-- The 80-entry message schedule of one 16-word block. -/
def schedule (block : List Nat) : List Nat :=
  (List.range 80).foldl
    (fun w t =>
      if t < 16 then w ++ [block.getD t 0]
      else w ++ [rotl 1 ((w.getD (t - 3) 0) ^^^ (w.getD (t - 8) 0) ^^^
                         (w.getD (t - 14) 0) ^^^ (w.getD (t - 16) 0))])
    []

/-- One compression step over a 16-word block. -/
def compress (h : Nat × Nat × Nat × Nat × Nat) (block : List Nat) :
    Nat × Nat × Nat × Nat × Nat :=
  let ws := schedule block
  let (h0, h1, h2, h3, h4) := h
  let final := (List.range 80).foldl
    (fun (st : Nat × Nat × Nat × Nat × Nat) t =>
      let (a, b, c, d, e) := st
      let temp := (rotl 5 a + roundF t b c d + e + roundK t + ws.getD t 0) % 2 ^ 32
      (temp, a, rotl 30 b, c, d))
    (h0, h1, h2, h3, h4)
  let (a, b, c, d, e) := final
  ((h0 + a) % 2 ^ 32, (h1 + b) % 2 ^ 32, (h2 + c) % 2 ^ 32,
   (h3 + d) % 2 ^ 32, (h4 + e) % 2 ^ 32)

/-- Split a word list into 16-word blocks (a padded message is always a
multiple of 16 words). -/
def blocks16 : List Nat → List (List Nat)
  | w0 :: w1 :: w2 :: w3 :: w4 :: w5 :: w6 :: w7 ::
    w8 :: w9 :: w10 :: w11 :: w12 :: w13 :: w14 :: w15 :: rest =>
      [w0, w1, w2, w3, w4, w5, w6, w7, w8, w9, w10, w11, w12, w13, w14, w15] ::
        blocks16 rest
  | _ => []

/-- Lower-case hex digit. -/
def hexDigit (n : Nat) : Char :=
  if n < 10 then Char.ofNat (48 + n) else Char.ofNat (87 + n)

/-- A 32-bit word as 8 lower-case hex characters. -/
def wordHex (w : Nat) : String :=
  String.mk ((List.range 8).map (fun i => hexDigit ((w >>> ((7 - i) * 4)) % 16)))

/-- SHA-1 of a byte-list message, as the 40-character lower-case hex digest
(`createHash('sha1').update(s).digest('hex')`). -/
def sha1hex (msg : List Nat) : String :=
  let (h0, h1, h2, h3, h4) :=
    (blocks16 (bytesToWords (pad msg))).foldl compress
      (0x67452301, 0xEFCDAB89, 0x98BADCFE, 0x10325476, 0xC3D2E1F0)
  wordHex h0 ++ wordHex h1 ++ wordHex h2 ++ wordHex h3 ++ wordHex h4

end Sha1

/-- The bytes of a string as hashed by `createHash('sha1').update(s)`: the
strings the service hashes are ASCII (decimal digits, `-`, `.`), where the
UTF-8 bytes are exactly the code points. -/
def asciiBytes (s : String) : List Nat := s.data.map Char.toNat

/-- Ground truth check of the SHA-1 embedding against the standard test
vector `SHA1("abc")`. -/
theorem sha1hex_abc :
    Sha1.sha1hex (asciiBytes "abc") = "a9993e364706816aba3e25717850c26c9cd0d89d" := by
  decide

/-! ## Data model: history types, stickers, inspect results, persisted documents -/

/-- The `HistoryType` enum of src/schemas/history.schema.ts (the variants the
inspect service can produce). -/
inductive HistoryType where
  | TRADE | MARKET_LISTING | MARKET_BUY
  | STICKER_APPLY | STICKER_REMOVE | STICKER_CHANGE | STICKER_SCRAPE
  | UNBOXED | CRAFTED | TRADED_UP | PURCHASED_INGAME | DROPPED
  | KEYCHAIN_ADDED | KEYCHAIN_REMOVED | KEYCHAIN_CHANGED
  | UNKNOWN
deriving DecidableEq, Repr

/-- A sticker / keychain entry of an inspect result; every field can be
`null` (`none`). -/
structure Sticker where
  slot : Option JsNum
  sticker_id : Option JsNum
  wear : Option JsNum
  offset_x : Option JsNum
  offset_y : Option JsNum
  offset_z : Option JsNum
  rotation : Option JsNum
deriving DecidableEq, Repr

/-- The inspect result delivered by the game transport, restricted to the
fields inspect.service.ts reads.  `none` models a `null` (absent) field; the
transport's absent marker is `null`, which is also the sentinel the service
tests for. -/
structure InspectResponse where
  itemid : String
  defindex : Option JsNum
  paintindex : Option JsNum
  paintseed : Option JsNum
  paintwear : Option JsNum
  origin : Option JsNum
  rarity : Option JsNum
  questid : Option JsNum
  quality : Option JsNum
  dropreason : Option JsNum
  customname : Option String
  stickers : Option (List Sticker)
  keychains : Option (List Sticker)
  killeaterscoretype : Option JsNum
  killeatervalue : Option JsNum
  inventory : Option JsNum
  petindex : Option JsNum
  musicindex : Option JsNum
  entindex : Option JsNum
deriving DecidableEq, Repr

/-- A document of the `inspect_assets` collection (src/schemas/asset.schema.ts).
`ms` is kept as the submitted string; the schema casts it to a JS `Number`,
but no code relevant to the claims reads it back numerically.
`paintSeed`/`paintIndex`/`paintWear` are written through
`response.x === null ? 0 : response.x`, so they are always present. -/
structure AssetDoc where
  uniqueId : String
  ms : String
  d : String
  assetId : Option Nat
  paintSeed : JsNum
  paintIndex : JsNum
  paintWear : JsNum
  customName : Option String
  defIndex : Option JsNum
  origin : Option JsNum
  rarity : Option JsNum
  questId : Option JsNum
  stickers : Option (List Sticker)
  quality : Option JsNum
  keychains : Option (List Sticker)
  killeaterScoreType : Option JsNum
  killeaterValue : Option JsNum
  inventory : Option JsNum
  petIndex : Option JsNum
  musicIndex : Option JsNum
  entIndex : Option JsNum
  dropReason : Option JsNum
deriving DecidableEq, Repr

/-- Model of `history.owner`, as `getHistoryType` reads it off the prior document:
`findHistory` queries the **Asset** model, and the `Asset` schema declares no
`owner` path (the prior owner id lives in `ms`), so the property access
yields `undefined`. -/
def AssetDoc.owner (_ : AssetDoc) : JsVal := JsVal.undef

/-- A document of the `inspect_history` collection
(src/schemas/history.schema.ts), as created by `saveHistory`. -/
structure HistoryDoc where
  uniqueId : String
  assetId : Option Nat
  prevAssetId : Option Nat
  owner : String
  prevOwner : Option String
  d : String
  stickers : Option (List Sticker)
  keychains : Option (List Sticker)
  prevStickers : Option (List Sticker)
  prevKeychains : Option (List Sticker)
  type : HistoryType
deriving DecidableEq, Repr

/-- The persistence store visible to the service: the `inspect_assets`
collection ordered most-recently-created first, and the `inspect_history`
collection in insertion order. -/
structure DB where
  assets : List AssetDoc
  history : List HistoryDoc
deriving DecidableEq, Repr

/-! ## JS-semantics helpers used by the service functions -/

/-- Truthiness of a possibly-null number (`response.paintseed && …`). -/
def truthyOpt : Option JsNum → Bool
  | none => false
  | some n => n.truthy

/-- Model of `x === k` between a possibly-null number and a numeric literal. -/
def jsEqNum (o : Option JsNum) (k : ℚ) : Bool :=
  match o with
  | none => false
  | some n => n.val = k

/-- Strict equality `===` between two possibly-null JS numbers:
`null === null` holds, numbers compare by value. -/
def jsStrictEqOpt (a b : Option JsNum) : Bool :=
  match a, b with
  | none, none => true
  | some m, some n => m.val = n.val
  | _, _ => false

/-- JS `>` between possibly-null numbers: `null` coerces to `0`. -/
def jsGtOpt (a b : Option JsNum) : Bool :=
  (match a with | some n => n.val | none => 0) >
  (match b with | some n => n.val | none => 0)

/-- Model of `response.x === null ? 0 : response.x`. -/
def jsNullToZero (o : Option JsNum) : Option JsNum :=
  match o with
  | none => some (jsNat 0)
  | some n => some n

/-- Model of `item.x || 0` as it is rendered into the hashed string: a missing or
falsy field contributes the literal `0`. -/
def jsOrZeroRender (o : Option JsNum) : String :=
  match o with
  | none => "0"
  | some n => if n.truthy then n.render else "0"

/-- Model of `m !== '0' && m ? m : s` — the owner id stored with a request. -/
def msOf (s m : String) : String :=
  if m ≠ "0" ∧ m ≠ "" then m else s

/-! ## generateUniqueId and its specification counterpart -/

/-- The argument record built at `generateUniqueId`'s call site. -/
structure UniqueIdItem where
  paintSeed : Option JsNum
  paintIndex : Option JsNum
  paintWear : Option JsNum
  defIndex : Option JsNum
  origin : Option JsNum
  rarity : Option JsNum
  questId : Option JsNum
  quality : Option JsNum
  dropReason : Option JsNum

/-- Model of `generateUniqueId` (inspect.service.ts:496-515): join
`[paintSeed||0, paintIndex||0, paintWear||0, defIndex||0]` with `-`,
SHA-1 it, keep the first 8 hex digits. -/
def generateUniqueId (item : UniqueIdItem) : String :=
  let values := [jsOrZeroRender item.paintSeed, jsOrZeroRender item.paintIndex,
                 jsOrZeroRender item.paintWear, jsOrZeroRender item.defIndex]
  let stringToHash := String.intercalate "-" values
  (Sha1.sha1hex (asciiBytes stringToHash)).take 8

/-- The spec's null normalization: a `null` value contributes `0` to the
hashed string, a present value contributes its own rendering. -/
def normNull (o : Option JsNum) : String :=
  match o with
  | none => "0"
  | some n => n.render

/-- The spec's formula for `uniqueId`: the 8-hex-digit prefix of
`SHA-1("{paintSeed}-{paintIndex}-{paintWear}-{defIndex}")`, the four values
joined by `-`, with a `null` value normalized to `0` before hashing.
Written from the spec's words, to be compared with the source's
`generateUniqueId`. -/
def specUniqueId (r : InspectResponse) : String :=
  (Sha1.sha1hex (asciiBytes (String.intercalate "-"
    [normNull r.paintseed, normNull r.paintindex,
     normNull r.paintwear, normNull r.defindex]))).take 8

/-- The `uniqueId` computed at the top of `handleInspectResult`
(inspect.service.ts:288-298): `paintIndex`/`paintWear` are null-normalized at
the call site, the rest is passed through. -/
def handleUniqueId (r : InspectResponse) : String :=
  generateUniqueId {
    paintSeed := r.paintseed
    paintIndex := jsNullToZero r.paintindex
    paintWear := jsNullToZero r.paintwear
    defIndex := r.defindex
    origin := r.origin
    rarity := r.rarity
    questId := r.questid
    quality := r.quality
    dropReason := r.dropreason }

/-! ## The history classifier and the sticker / keychain differs -/

/-- Model of `history?.owner?.toString().startsWith('7656')`: the optional chain
collapses to `undefined` (falsy) when `owner` is `undefined`. -/
def ownerStarts7656 : JsVal → Bool
  | .undef => false
  | v => v.jsToString.startsWith "7656"

/-- The MongoDB equality used by `findHistory`'s filter: numbers match by
value, a `null` query value matches a `null`/absent stored value. -/
def mongoEqNum (q s : Option JsNum) : Bool :=
  match q, s with
  | none, none => true
  | some m, some n => m.val = n.val
  | _, _ => false

/-- Model of `findHistory` (inspect.service.ts:338-348): the most recent asset record
matching the seven-field tuple (`assets` is ordered most-recent-first). -/
def findHistory (db : DB) (r : InspectResponse) : Option AssetDoc :=
  (db.assets.filter (fun a =>
    mongoEqNum r.paintwear (some a.paintWear) ∧
    mongoEqNum r.paintindex (some a.paintIndex) ∧
    mongoEqNum r.defindex a.defIndex ∧
    mongoEqNum r.paintseed (some a.paintSeed) ∧
    mongoEqNum r.origin a.origin ∧
    mongoEqNum r.questid a.questId ∧
    mongoEqNum r.rarity a.rarity)).head?

/-- The predicate of the `previousStickers.find(...)` callback
(inspect.service.ts:418-425): equality on
`(offset_x, offset_y, offset_z, rotation, slot, sticker_id)`. -/
def match6 (prev current : Sticker) : Bool :=
  jsStrictEqOpt prev.offset_x current.offset_x ∧
  jsStrictEqOpt prev.offset_y current.offset_y ∧
  jsStrictEqOpt prev.offset_z current.offset_z ∧
  jsStrictEqOpt prev.rotation current.rotation ∧
  jsStrictEqOpt prev.slot current.slot ∧
  jsStrictEqOpt prev.sticker_id current.sticker_id

/-- The scan inside `detectStickerChanges` (inspect.service.ts:417-440): walk
the current stickers in array order; the first one with no
`(slot, sticker_id, offsets, rotation)` match, or with a match whose `wear`
changed, decides the result. -/
def stickerScan (previousStickers : List Sticker) (curLen prevLen : Nat) :
    List Sticker → Option HistoryType
  | [] => none
  | current :: rest =>
    match previousStickers.find? (fun prev => match6 prev current) with
    | none =>
      if curLen = prevLen then some .STICKER_CHANGE else some .STICKER_REMOVE
    | some previous =>
      if ¬ jsStrictEqOpt current.wear previous.wear then
        if jsGtOpt current.wear previous.wear then some .STICKER_SCRAPE
        else some .STICKER_CHANGE
      else stickerScan previousStickers curLen prevLen rest

/-- Model of `detectStickerChanges` (inspect.service.ts:406-443).  A `null`/absent
array yields `null`; arrays themselves are always truthy in JS. -/
def detectStickerChanges (currentStickers previousStickers : Option (List Sticker)) :
    Option HistoryType :=
  match currentStickers, previousStickers with
  | some cur, some prev =>
    if cur.length > prev.length then some .STICKER_APPLY
    else if cur.length < prev.length then some .STICKER_REMOVE
    else stickerScan prev cur.length prev.length cur
  | _, _ => none

/-- Model of `detectKeychainChanges` (inspect.service.ts:445-458).
`JSON.stringify` inequality is modelled as structural list inequality. -/
def detectKeychainChanges (currentKeychains previousKeychains : Option (List Sticker)) :
    Option HistoryType :=
  match currentKeychains, previousKeychains with
  | some cur, some prev =>
    if cur.length = 0 ∧ prev.length > 0 then some .KEYCHAIN_REMOVED
    else if cur.length > 0 ∧ prev.length = 0 then some .KEYCHAIN_ADDED
    else if cur ≠ prev then some .KEYCHAIN_CHANGED
    else none
  | _, _ => none

/-- Model of `getHistoryType` (inspect.service.ts:372-404).  `history` is the prior
asset record returned by `findHistory`; `ms` is `inspectData.ms`, a string.
The early-return chain of the source is rendered as a nested conditional
with the conditions copied verbatim; `history.owner` is the (undefined)
`owner` access on the Asset document. -/
def getHistoryType (response : InspectResponse) (history : Option AssetDoc)
    (ms : String) : HistoryType :=
  match history with
  | none =>
    if jsEqNum response.origin 8 then .TRADED_UP
    else if jsEqNum response.origin 4 then .DROPPED
    else if jsEqNum response.origin 1 then .PURCHASED_INGAME
    else if jsEqNum response.origin 2 then .UNBOXED
    else if jsEqNum response.origin 3 then .CRAFTED
    else .UNKNOWN
  | some h =>
    if h.owner.strictEqStr ms = false ∧ ownerStarts7656 h.owner then .TRADE
    else if h.owner.strictEqStr ms = false ∧ h.owner.truthy ∧
        ¬ ownerStarts7656 h.owner then .MARKET_BUY
    else if h.owner.truthy ∧ ownerStarts7656 h.owner ∧
        ¬ ms.startsWith "7656" then .MARKET_LISTING
    else if h.owner.strictEqStr ms then
      match detectStickerChanges response.stickers h.stickers with
      | some t => t
      | none =>
        match detectKeychainChanges response.keychains h.keychains with
        | some t => t
        | none => .UNKNOWN
    else .UNKNOWN

/-! ## Persistence: saveHistory, saveAsset, handleInspectResult -/

/-- Model of `saveHistory` (inspect.service.ts:350-370): create a history row only when
no row for this `assetId` exists yet. -/
def saveHistory (db : DB) (response : InspectResponse) (history : Option AssetDoc)
    (ms d uniqueId : String) : DB :=
  let existing := db.history.find? (fun rec => rec.assetId = jsParseInt response.itemid)
  match existing with
  | some _ => db
  | none =>
    { db with history := db.history ++ [{
        uniqueId := uniqueId
        assetId := jsParseInt response.itemid
        prevAssetId := match history with | none => none | some h => h.assetId
        owner := ms
        prevOwner := match history with | none => none | some h => some h.ms
        d := d
        stickers := response.stickers
        keychains := response.keychains
        prevStickers := match history with | none => none | some h => h.stickers
        prevKeychains := match history with | none => none | some h => h.keychains
        type := getHistoryType response history ms }] }

/-- The `assetData` record built by `saveAsset` (inspect.service.ts:460-484). -/
def mkAssetData (response : InspectResponse) (ms d uniqueId : String) : AssetDoc :=
  { uniqueId := uniqueId
    ms := ms
    d := d
    assetId := jsParseInt response.itemid
    paintSeed := (jsNullToZero response.paintseed).getD (jsNat 0)
    paintIndex := (jsNullToZero response.paintindex).getD (jsNat 0)
    paintWear := (jsNullToZero response.paintwear).getD (jsNat 0)
    customName := response.customname
    defIndex := response.defindex
    origin := response.origin
    rarity := response.rarity
    questId := response.questid
    stickers := response.stickers
    quality := response.quality
    keychains := response.keychains
    killeaterScoreType := response.killeaterscoretype
    killeaterValue := response.killeatervalue
    inventory := response.inventory
    petIndex := response.petindex
    musicIndex := response.musicindex
    entIndex := response.entindex
    dropReason := response.dropreason }

/-- Upsert keyed on `uniqueId` (`findOneAndUpdate({uniqueId}, {$set}, {upsert})`):
replace the existing row in place, else insert as most recent. -/
def upsertByUniqueId (assets : List AssetDoc) (data : AssetDoc) : List AssetDoc :=
  if assets.any (fun a => a.uniqueId = data.uniqueId) then
    assets.map (fun a => if a.uniqueId = data.uniqueId then data else a)
  else data :: assets

/-- Model of `saveAsset` (inspect.service.ts:460-494): upsert by `uniqueId`, then read
back by `assetId`. -/
def saveAsset (db : DB) (response : InspectResponse) (ms d uniqueId : String) :
    DB × Option AssetDoc :=
  let assets' := upsertByUniqueId db.assets (mkAssetData response ms d uniqueId)
  ({ db with assets := assets' },
   assets'.find? (fun a => a.assetId = jsParseInt response.itemid))

/-- Model of `handleInspectResult` (inspect.service.ts:286-322): compute the uniqueId,
append history when `paintseed` is truthy and `paintwear`/`paintindex` are
non-null, upsert the asset, and return the read-back asset (`none` models the
`No asset found` error path). -/
def handleInspectResult (db : DB) (response : InspectResponse) (ms d : String) :
    DB × Option AssetDoc :=
  let uniqueId := handleUniqueId response
  let db₁ :=
    if truthyOpt response.paintseed ∧ response.paintwear ≠ none ∧
        response.paintindex ≠ none then
      saveHistory db response (findHistory db response) ms d uniqueId
    else db
  saveAsset db₁ response ms d uniqueId

/-! ## C1 — the stored uniqueId matches the spec's SHA-1 formula -/

/-- A response field is well rendered when a zero value renders as `"0"`,
which holds of every JS number (`NaN` is outside the model). -/
def OptWellRendered (o : Option JsNum) : Prop :=
  match o with
  | none => True
  | some n => n.val = 0 → n.render = "0"

instance (o : Option JsNum) : Decidable (OptWellRendered o) := by
  unfold OptWellRendered
  cases o <;> infer_instance

theorem jsOrZeroRender_eq_norm (o : Option JsNum) (h : OptWellRendered o) :
    jsOrZeroRender o = normNull o := by
  cases o with
  | none => rfl
  | some n =>
    unfold OptWellRendered at h
    by_cases hv : n.val = 0
    · simp [jsOrZeroRender, JsNum.truthy, normNull, hv, h hv]
    · simp [jsOrZeroRender, JsNum.truthy, normNull, hv]

theorem jsOrZeroRender_nullToZero (o : Option JsNum) :
    jsOrZeroRender (jsNullToZero o) = jsOrZeroRender o := by
  cases o with
  | none => decide
  | some n => rfl

/-- The upserted record is a member of the collection after the upsert. -/
theorem upsertByUniqueId_mem (assets : List AssetDoc) (data : AssetDoc) :
    data ∈ upsertByUniqueId assets data := by
  unfold upsertByUniqueId
  by_cases h : assets.any (fun a => a.uniqueId = data.uniqueId)
  · simp only [h, if_true]
    obtain ⟨a, ha, hq⟩ := List.any_eq_true.mp h
    refine List.mem_map.mpr ⟨a, ha, ?_⟩
    simp [of_decide_eq_true hq]
  · simp [h]

/-- Claim C1. For every inspect result processed by `handleInspectResult`, the
uniqueId it computes — the one stored with the upserted asset — equals the
8-hex-digit prefix of the SHA-1 of
`"{paintSeed}-{paintIndex}-{paintWear}-{defIndex}"` (the four values joined
by `-`), with a null `paintSeed`, `paintIndex`, `paintWear` or `defIndex`
normalized to `0` before hashing. -/
theorem c1_stored_uniqueId_matches_sha1_spec (db : DB) (r : InspectResponse)
    (ms d : String)
    (hs : OptWellRendered r.paintseed) (hi : OptWellRendered r.paintindex)
    (hw : OptWellRendered r.paintwear) (hd : OptWellRendered r.defindex) :
    handleUniqueId r = specUniqueId r ∧
    mkAssetData r ms d (specUniqueId r) ∈ (handleInspectResult db r ms d).1.assets := by
  have huid : handleUniqueId r = specUniqueId r := by
    unfold handleUniqueId generateUniqueId specUniqueId
    rw [jsOrZeroRender_nullToZero, jsOrZeroRender_nullToZero,
        jsOrZeroRender_eq_norm _ hs, jsOrZeroRender_eq_norm _ hi,
        jsOrZeroRender_eq_norm _ hw, jsOrZeroRender_eq_norm _ hd]
  refine ⟨huid, ?_⟩
  show mkAssetData r ms d (specUniqueId r) ∈
    (saveAsset _ r ms d (handleUniqueId r)).1.assets
  rw [huid]
  simpa [saveAsset] using
    upsertByUniqueId_mem _ (mkAssetData r ms d (specUniqueId r))

/-- Model of `7/100`, built as a raw reduced fraction so that the kernel can evaluate
it (`Rat` division normalizes through `Nat.gcd`, whose well-founded
recursion the kernel does not unfold). -/
def q7c : ℚ := ⟨7, 100, by norm_num, by norm_num⟩

/-- A concrete successful inspect result (the fresh-unbox scenario of the
spec: seed 661, paint index 44, wear 0.07). -/
def c1Resp : InspectResponse :=
  { itemid := "35678726741"
    defindex := some (jsNat 1209)
    paintindex := some (jsNat 44)
    paintseed := some (jsNat 661)
    paintwear := some ⟨q7c, "0.07"⟩
    origin := some (jsNat 2)
    rarity := some (jsNat 4)
    questid := none
    quality := some (jsNat 4)
    dropreason := none
    customname := none
    stickers := some []
    keychains := some []
    killeaterscoretype := none
    killeatervalue := none
    inventory := some (jsNat 261)
    petindex := none
    musicindex := none
    entindex := none }

/-- Witness for C1 at the concrete result `c1Resp` against an empty store. -/
theorem c1_stored_uniqueId_matches_sha1_spec_witness :
    OptWellRendered c1Resp.paintseed ∧ OptWellRendered c1Resp.paintindex ∧
    OptWellRendered c1Resp.paintwear ∧ OptWellRendered c1Resp.defindex ∧
    (handleUniqueId c1Resp = specUniqueId c1Resp ∧
      mkAssetData c1Resp "76561198023809011" "4649654965632117657"
        (specUniqueId c1Resp) ∈
        (handleInspectResult ⟨[], []⟩ c1Resp "76561198023809011"
          "4649654965632117657").1.assets) :=
  ⟨by decide, by decide, by decide, by decide,
   c1_stored_uniqueId_matches_sha1_spec ⟨[], []⟩ c1Resp "76561198023809011"
     "4649654965632117657" (by decide) (by decide) (by decide) (by decide)⟩

/-! ## C2 — the owner-based history rules never fire on a prior record

`findHistory` queries the **Asset** collection, whose schema stores the owner
id in `ms` and has no `owner` path; `getHistoryType` nevertheless reads
`history.owner`, so every owner-based rule sees `undefined` and falls
through. -/

/-- A prior asset record previously owned by a user
(`ms = "76561198023809011"`, the SteamID64 prefix `7656`). -/
def c2PriorAsset : AssetDoc :=
  { uniqueId := "1b9a335a"
    ms := "76561198023809011"
    d := "4649654965632117657"
    assetId := some 35678726740
    paintSeed := jsNat 661
    paintIndex := jsNat 44
    paintWear := ⟨q7c, "0.07"⟩
    customName := none
    defIndex := some (jsNat 1209)
    origin := some (jsNat 2)
    rarity := some (jsNat 4)
    questId := none
    stickers := some []
    quality := some (jsNat 4)
    keychains := some []
    killeaterScoreType := none
    killeaterValue := none
    inventory := some (jsNat 261)
    petIndex := none
    musicIndex := none
    entIndex := none
    dropReason := none }

/-- Claim C2 (the code, at the claim's inputs).  Whenever a prior record exists,
`getHistoryType` returns `UNKNOWN`: the prior record is an Asset document, its
`owner` access yields `undefined`, so the TRADE / MARKET_BUY / MARKET_LISTING
rules and the same-owner sticker branch are all unreachable.  In particular at
the claim's failing input — previous owner `76561198023809011` (a user), new
owner `100` (a market proxy) — the classifier returns `UNKNOWN` where the
claim requires `TRADE` (rule 2) resp. `MARKET_LISTING` (rule 3). -/
theorem c2_owner_rules_never_fire :
    (∀ (r : InspectResponse) (h : AssetDoc) (ms : String),
      getHistoryType r (some h) ms = .UNKNOWN) ∧
    getHistoryType c1Resp (some c2PriorAsset) "100" = .UNKNOWN := by
  constructor
  · intro r h ms
    rfl
  · rfl

/-! ## C7 — the sticker differ -/

/-- Model of `1/10`, `1/20`, `3/10` as kernel-evaluable reduced fractions. -/
def q010 : ℚ := ⟨1, 10, by norm_num, by norm_num⟩

def q005 : ℚ := ⟨1, 20, by norm_num, by norm_num⟩

def q030 : ℚ := ⟨3, 10, by norm_num, by norm_num⟩

/-- Previous sticker in slot 0. -/
def c7A : Sticker :=
  { slot := some (jsNat 0), sticker_id := some (jsNat 100),
    wear := some ⟨q010, "0.1"⟩,
    offset_x := none, offset_y := none, offset_z := none, rotation := none }

/-- Previous sticker in slot 1 (wear 0.05). -/
def c7B : Sticker :=
  { slot := some (jsNat 1), sticker_id := some (jsNat 202),
    wear := some ⟨q005, "0.05"⟩,
    offset_x := none, offset_y := none, offset_z := none, rotation := none }

/-- Current slot-0 sticker, replaced by a different sticker id (no 6-key
match among the previous stickers). -/
def c7Anew : Sticker :=
  { slot := some (jsNat 0), sticker_id := some (jsNat 999),
    wear := none,
    offset_x := none, offset_y := none, offset_z := none, rotation := none }

/-- Current slot-1 sticker: same 6-key tuple as `c7B`, wear scraped up to
0.30. -/
def c7Bnew : Sticker :=
  { slot := some (jsNat 1), sticker_id := some (jsNat 202),
    wear := some ⟨q030, "0.3"⟩,
    offset_x := none, offset_y := none, offset_z := none, rotation := none }

/-- Claim C7, counterexample.  Equal sticker counts, a 6-key mismatch is
present (`c7Anew`), and a matching slot's wear strictly increased
(`c7B → c7Bnew`), so the claim requires `STICKER_SCRAPE`; the code returns
`STICKER_CHANGE`, because the scan decides at the first current sticker in
array order.  Listing the same current stickers in the other order returns
`STICKER_SCRAPE`, so no order-free reading of the claim matches the code. -/
theorem c7_sticker_differ_counterexample :
    [c7Anew, c7Bnew].length = [c7A, c7B].length ∧
    (∃ c ∈ [c7Anew, c7Bnew], ∀ p ∈ [c7A, c7B], ¬ match6 p c) ∧
    (∃ c ∈ [c7Anew, c7Bnew], ∃ p ∈ [c7A, c7B],
      match6 p c ∧ ¬ jsStrictEqOpt c.wear p.wear ∧ jsGtOpt c.wear p.wear) ∧
    detectStickerChanges (some [c7Anew, c7Bnew]) (some [c7A, c7B]) =
      some .STICKER_CHANGE ∧
    detectStickerChanges (some [c7Bnew, c7Anew]) (some [c7A, c7B]) =
      some .STICKER_SCRAPE := by
  decide

theorem stickerScan_le_attempts (prev : List Sticker) (n : Nat) :
    ∀ cur : List Sticker,
      (∃ c ∈ cur, prev.find? (fun q => match6 q c) = none) →
      (∀ c ∈ cur, ∀ p, prev.find? (fun q => match6 q c) = some p →
        jsStrictEqOpt c.wear p.wear) →
      stickerScan prev n n cur = some .STICKER_CHANGE := by
  intro cur
  induction cur with
  | nil => rintro ⟨c, hc, -⟩ _; cases hc
  | cons c rest ih =>
    rintro ⟨c', hc', hnone⟩ hall
    unfold stickerScan
    cases hfind : prev.find? (fun q => match6 q c) with
    | none => simp
    | some p =>
      have hwear := hall c (List.mem_cons_self _ _) p hfind
      simp only [hwear, not_true_eq_false, if_false]
      refine ih ⟨c', ?_, hnone⟩ (fun x hx => hall x (List.mem_cons_of_mem _ hx))
      rcases List.mem_cons.mp hc' with rfl | h
      · rw [hfind] at hnone; cases hnone
      · exact h

theorem stickerScan_scrape (prev : List Sticker) (n : Nat) :
    ∀ cur : List Sticker,
      (∀ c ∈ cur, (prev.find? (fun q => match6 q c)).isSome) →
      (∀ c ∈ cur, ∀ p, prev.find? (fun q => match6 q c) = some p →
        ¬ jsStrictEqOpt c.wear p.wear → jsGtOpt c.wear p.wear) →
      (∃ c ∈ cur, ∃ p, prev.find? (fun q => match6 q c) = some p ∧
        ¬ jsStrictEqOpt c.wear p.wear) →
      stickerScan prev n n cur = some .STICKER_SCRAPE := by
  intro cur
  induction cur with
  | nil => rintro _ _ ⟨c, hc, -⟩; cases hc
  | cons c rest ih =>
    rintro hmatched hinc ⟨c', hc', p', hp', hdiff⟩
    unfold stickerScan
    cases hfind : prev.find? (fun q => match6 q c) with
    | none =>
      have := hmatched c (List.mem_cons_self _ _)
      rw [hfind] at this; cases this
    | some p =>
      by_cases hw : jsStrictEqOpt c.wear p.wear = true
      · simp only [hw, not_true_eq_false, if_false]
        refine ih (fun x hx => hmatched x (List.mem_cons_of_mem _ hx))
          (fun x hx => hinc x (List.mem_cons_of_mem _ hx)) ⟨c', ?_, p', hp', hdiff⟩
        rcases List.mem_cons.mp hc' with rfl | h
        · rw [hfind] at hp'; injection hp' with hpe; subst hpe
          exact absurd hw hdiff
        · exact h
      · have hgt := hinc c (List.mem_cons_self _ _) p hfind
          (by simpa using hw)
        simp [hw, hgt]

theorem stickerScan_none (prev : List Sticker) (n : Nat) :
    ∀ cur : List Sticker,
      (∀ c ∈ cur, ∀ p, prev.find? (fun q => match6 q c) = some p →
        jsStrictEqOpt c.wear p.wear) →
      (∀ c ∈ cur, (prev.find? (fun q => match6 q c)).isSome) →
      stickerScan prev n n cur = none := by
  intro cur
  induction cur with
  | nil => intro _ _; rfl
  | cons c rest ih =>
    intro hall hmatched
    unfold stickerScan
    cases hfind : prev.find? (fun q => match6 q c) with
    | none =>
      have := hmatched c (List.mem_cons_self _ _)
      rw [hfind] at this; cases this
    | some p =>
      have hwear := hall c (List.mem_cons_self _ _) p hfind
      simp only [hwear, not_true_eq_false, if_false]
      exact ih (fun x hx => hall x (List.mem_cons_of_mem _ hx))
        (fun x hx => hmatched x (List.mem_cons_of_mem _ hx))

/-- Claim C7, amended.  Count changes decide first (`STICKER_APPLY` /
`STICKER_REMOVE`).  With equal counts the scan walks the *current* array in
order and the first decisive sticker wins, so the result is order-dependent;
order-free statements hold in the unambiguous cases: a 6-key mismatch with
every matched sticker's wear unchanged yields `STICKER_CHANGE`; all stickers
matched, every wear change an increase, and at least one wear change, yields
`STICKER_SCRAPE`; all matched with unchanged wear yields no sticker event. -/
theorem c7_sticker_differ_amended (cur prev : List Sticker) :
    (cur.length > prev.length →
      detectStickerChanges (some cur) (some prev) = some .STICKER_APPLY) ∧
    (cur.length < prev.length →
      detectStickerChanges (some cur) (some prev) = some .STICKER_REMOVE) ∧
    (cur.length = prev.length →
      (∃ c ∈ cur, prev.find? (fun q => match6 q c) = none) →
      (∀ c ∈ cur, ∀ p, prev.find? (fun q => match6 q c) = some p →
        jsStrictEqOpt c.wear p.wear) →
      detectStickerChanges (some cur) (some prev) = some .STICKER_CHANGE) ∧
    (cur.length = prev.length →
      (∀ c ∈ cur, (prev.find? (fun q => match6 q c)).isSome) →
      (∀ c ∈ cur, ∀ p, prev.find? (fun q => match6 q c) = some p →
        ¬ jsStrictEqOpt c.wear p.wear → jsGtOpt c.wear p.wear) →
      (∃ c ∈ cur, ∃ p, prev.find? (fun q => match6 q c) = some p ∧
        ¬ jsStrictEqOpt c.wear p.wear) →
      detectStickerChanges (some cur) (some prev) = some .STICKER_SCRAPE) ∧
    (cur.length = prev.length →
      (∀ c ∈ cur, (prev.find? (fun q => match6 q c)).isSome) →
      (∀ c ∈ cur, ∀ p, prev.find? (fun q => match6 q c) = some p →
        jsStrictEqOpt c.wear p.wear) →
      detectStickerChanges (some cur) (some prev) = none) := by
  refine ⟨fun hgt => ?_, fun hlt => ?_, fun heq hex hall => ?_,
    fun heq hm hinc hex => ?_, fun heq hall hm => ?_⟩
  · simp [detectStickerChanges, hgt]
  · simp [detectStickerChanges, hlt, Nat.not_lt_of_lt hlt]
  · simp only [detectStickerChanges, heq, lt_irrefl, if_false, gt_iff_lt]
    exact stickerScan_le_attempts prev prev.length cur hex hall
  · simp only [detectStickerChanges, heq, lt_irrefl, if_false, gt_iff_lt]
    exact stickerScan_scrape prev prev.length cur hm hinc hex
  · simp only [detectStickerChanges, heq, lt_irrefl, if_false, gt_iff_lt]
    exact stickerScan_none prev prev.length cur hm hall

/-- Witness for the amended C7 at concrete sticker arrays: an application,
a removal, a pure scrape, a pure change, and a no-event case. -/
theorem c7_sticker_differ_amended_witness :
    detectStickerChanges (some [c7A, c7B]) (some [c7A]) = some .STICKER_APPLY ∧
    detectStickerChanges (some [c7A]) (some [c7A, c7B]) = some .STICKER_REMOVE ∧
    detectStickerChanges (some [c7Anew]) (some [c7A]) = some .STICKER_CHANGE ∧
    detectStickerChanges (some [c7Bnew]) (some [c7B]) = some .STICKER_SCRAPE ∧
    detectStickerChanges (some [c7A, c7B]) (some [c7A, c7B]) = none :=
  ⟨(c7_sticker_differ_amended [c7A, c7B] [c7A]).1 (by decide),
   (c7_sticker_differ_amended [c7A] [c7A, c7B]).2.1 (by decide),
   (c7_sticker_differ_amended [c7Anew] [c7A]).2.2.1 (by decide) (by decide)
     (by decide),
   (c7_sticker_differ_amended [c7Bnew] [c7B]).2.2.2.1 (by decide) (by decide)
     (by decide) (by decide),
   (c7_sticker_differ_amended [c7A, c7B] [c7A, c7B]).2.2.2.2 (by decide)
     (by decide) (by decide)⟩

/-! ## C3 — history records are created guardedly and are append-only -/

/-- A history collection whose rows carry pairwise distinct `assetId`s also
has pairwise distinct `(uniqueId, assetId)` pairs. -/
theorem nodup_pairs_of_nodup_assetIds (l : List HistoryDoc)
    (h : (l.map (fun rec => rec.assetId)).Nodup) :
    (l.map (fun rec => (rec.uniqueId, rec.assetId))).Nodup := by
  have hmap : (l.map (fun rec => (rec.uniqueId, rec.assetId))).map Prod.snd =
      l.map (fun rec => rec.assetId) := by
    simp [List.map_map, Function.comp]
  exact List.Nodup.of_map Prod.snd (hmap ▸ h)

/-- Model of `saveHistory` either leaves the collection untouched (a row for this
`assetId` exists) or appends exactly one row keyed by `parseInt(itemid)`. -/
theorem saveHistory_append (db : DB) (r : InspectResponse) (h : Option AssetDoc)
    (ms d uid : String) :
    (saveHistory db r h ms d uid).history = db.history ∨
    ((db.history.find? (fun rec => rec.assetId = jsParseInt r.itemid)) = none ∧
      ∃ rec : HistoryDoc, rec.assetId = jsParseInt r.itemid ∧
        (saveHistory db r h ms d uid).history = db.history ++ [rec]) := by
  unfold saveHistory
  cases hfind : db.history.find? (fun rec => rec.assetId = jsParseInt r.itemid) with
  | some _ => left; rfl
  | none => exact Or.inr ⟨rfl, _, rfl, rfl⟩

/-- Claim C3.  `handleInspectResult` never updates or deletes history rows: the
collection only ever grows by at most one appended row; a new row appears only
when `paintseed` is truthy and `paintwear`, `paintindex` are non-null, and only
when no row for that `assetId` existed; and distinctness of `assetId`s — hence
of `(uniqueId, assetId)` pairs — is preserved. -/
theorem c3_history_append_only (db : DB) (r : InspectResponse) (ms d : String)
    (hnodup : (db.history.map (fun rec => rec.assetId)).Nodup) :
    (∃ t, (handleInspectResult db r ms d).1.history = db.history ++ t ∧
      t.length ≤ 1) ∧
    (∀ rec, rec ∈ (handleInspectResult db r ms d).1.history →
      rec ∉ db.history →
      ((truthyOpt r.paintseed ∧ r.paintwear ≠ none ∧ r.paintindex ≠ none) ∧
        ∀ old ∈ db.history, old.assetId ≠ rec.assetId)) ∧
    ((handleInspectResult db r ms d).1.history.map
      (fun rec => rec.assetId)).Nodup ∧
    ((handleInspectResult db r ms d).1.history.map
      (fun rec => (rec.uniqueId, rec.assetId))).Nodup := by
  have hsa : ∀ (x : DB) (u : String), ((saveAsset x r ms d u).1).history = x.history :=
    fun x u => rfl
  by_cases hcond : truthyOpt r.paintseed ∧ r.paintwear ≠ none ∧ r.paintindex ≠ none
  case neg =>
    have hhist : (handleInspectResult db r ms d).1.history = db.history := by
      unfold handleInspectResult
      simp only [if_neg hcond]
      exact hsa db _
    refine ⟨⟨[], by simp [hhist], by simp⟩, ?_, ?_, ?_⟩
    · intro rec hmem hnot
      rw [hhist] at hmem
      exact absurd hmem hnot
    · rw [hhist]; exact hnodup
    · rw [hhist]; exact nodup_pairs_of_nodup_assetIds _ hnodup
  case pos =>
    have hhist : (handleInspectResult db r ms d).1.history =
        (saveHistory db r (findHistory db r) ms d (handleUniqueId r)).history := by
      unfold handleInspectResult
      simp only [if_pos hcond]
      exact hsa _ _
    rcases saveHistory_append db r (findHistory db r) ms d (handleUniqueId r) with
      heq | ⟨hfind, rec, hrecid, heq⟩
    · rw [hhist, heq]
      refine ⟨⟨[], by simp, by simp⟩, ?_, hnodup,
        nodup_pairs_of_nodup_assetIds _ hnodup⟩
      intro rec hmem hnot
      exact absurd hmem hnot
    · have hnone : ∀ old ∈ db.history, old.assetId ≠ jsParseInt r.itemid := by
        intro old hold
        have := List.find?_eq_none.mp hfind old hold
        simpa using this
      have hnotin : jsParseInt r.itemid ∉ db.history.map (fun x => x.assetId) := by
        intro hmem
        obtain ⟨old, hold, holdid⟩ := List.mem_map.mp hmem
        exact hnone old hold holdid
      rw [hhist, heq]
      refine ⟨⟨[rec], rfl, by simp⟩, ?_, ?_, ?_⟩
      · intro rec' hmem hnot
        rcases List.mem_append.mp hmem with hl | hr
        · exact absurd hl hnot
        · have : rec' = rec := by simpa using hr
          subst this
          exact ⟨hcond, fun old hold => hrecid ▸ hnone old hold⟩
      · rw [List.map_append]
        simp only [List.map_cons, List.map_nil]
        rw [List.nodup_append]
        exact ⟨hnodup, List.nodup_singleton _, by
          intro x hx hmemx
          simp only [List.mem_singleton] at hmemx
          subst hmemx
          exact hnotin (hrecid ▸ hx)⟩
      · apply nodup_pairs_of_nodup_assetIds
        rw [List.map_append]
        simp only [List.map_cons, List.map_nil]
        rw [List.nodup_append]
        exact ⟨hnodup, List.nodup_singleton _, by
          intro x hx hmemx
          simp only [List.mem_singleton] at hmemx
          subst hmemx
          exact hnotin (hrecid ▸ hx)⟩

/-- Witness for C3: a first inspect of `c1Resp` against an empty store
appends one history row with distinct keys. -/
theorem c3_history_append_only_witness :
    ((([] : List HistoryDoc)).map (fun rec => rec.assetId)).Nodup ∧
    (∃ t, (handleInspectResult ⟨[], []⟩ c1Resp "76561198023809011"
        "4649654965632117657").1.history = [] ++ t ∧ t.length ≤ 1) ∧
    ((handleInspectResult ⟨[], []⟩ c1Resp "76561198023809011"
      "4649654965632117657").1.history.map
      (fun rec => (rec.uniqueId, rec.assetId))).Nodup :=
  ⟨by decide,
   (c3_history_append_only ⟨[], []⟩ c1Resp "76561198023809011"
     "4649654965632117657" (by decide)).1,
   (c3_history_append_only ⟨[], []⟩ c1Resp "76561198023809011"
     "4649654965632117657" (by decide)).2.2.2⟩

/-! ## The service state, the admission queue, and `inspectItem` -/

/-- A formatted response.  Modelled from the spec: format.service.ts is not
under src/; by the §6 collaborator contract the formatter is a pure
projection of the asset record, so it is modelled as an injective wrapper. -/
structure Formatted where
  asset : AssetDoc
deriving DecidableEq, Repr

/-- Model of `formatService.formatResponse`. -/
def formatResponse (a : AssetDoc) : Formatted := ⟨a⟩

/-- Entry priorities (`'low'` if `lowPriority`, else `'normal'`; the spec also
ranks `'high'`). -/
inductive Priority where
  | high | normal | low
deriving DecidableEq, Repr

/-- The entry record handed to `queueService.add` (inspect.service.ts:187-196
and 241-260); the `resolve`/`reject` closures are represented by whether they
are the background dummies. -/
structure QEntry where
  ms : String
  d : String
  retryCount : Nat
  urlS : String
  urlA : String
  urlD : String
  urlM : String
  priority : Priority
  background : Bool
deriving DecidableEq, Repr

/-- The value type of the service's `inspects` map (inspect.service.ts:26-36).
No code path ever inserts into the map, so no value is ever constructed. -/
structure InspectsEntry where
  ms : String
  d : String
  priority : String
  retryCount : Nat
deriving DecidableEq, Repr

/-- The mutable fields of `InspectService` together with the admission
queue's content and the persistence store. -/
structure SvcState where
  inspects : List (String × InspectsEntry)
  queue : List (String × QEntry)
  currentRequests : Nat
  success : Nat
  cached : Nat
  failed : Nat
  timeouts : Nat
  mgrCached : Nat
  db : DB
deriving DecidableEq, Repr

/-- Model of `MAX_QUEUE_SIZE` default (`parseInt(process.env.MAX_QUEUE_SIZE || '100')`). -/
def MAX_QUEUE_SIZE : Nat := 100

/-- Model of `QUEUE_TIMEOUT` default in ms (`parseInt(process.env.QUEUE_TIMEOUT || '10000')`). -/
def QUEUE_TIMEOUT : Nat := 10000

/-- Modelled from the spec: queue.service.ts is not under src/.  §4.3 gives
the contract `add(assetId, entry)` over a bounded map keyed by `assetId`; a
second submission for a queued asset coalesces onto the existing entry. -/
def qAdd (q : List (String × QEntry)) (a : String) (e : QEntry) :
    List (String × QEntry) :=
  if q.any (fun p => p.1 = a) then q else q ++ [(a, e)]

/-- Modelled from the spec: `remove(assetId)` of the §4.3 queue contract. -/
def qRemove (q : List (String × QEntry)) (a : String) : List (String × QEntry) :=
  q.filter (fun p => p.1 ≠ a)

/-- Modelled from the spec: `size()` of the §4.3 queue contract. -/
def qSize (q : List (String × QEntry)) : Nat := q.length

/-- Modelled from the spec: `isFull()` of the §4.3 queue contract — the
bounded capacity is `MAX_QUEUE_SIZE`. -/
def qIsFull (q : List (String × QEntry)) : Bool := MAX_QUEUE_SIZE ≤ qSize q

/-- Model of `checkCache` (inspect.service.ts:324-336): look the asset up by
`parseInt(assetId, 10)` only — the proof token `d` is accepted and ignored. -/
def checkCache (db : DB) (assetId d : String) : Option Formatted :=
  (db.assets.find? (fun a => a.assetId = jsParseInt assetId)).map formatResponse

/-- A parsed inspect request (parse.service.ts is not under src/; the DTO
carries the already-parsed `s, a, d, m` of §3's descriptor, `refresh` as a
truthiness flag, and `reply` as the optional boolean the service compares
with `=== false`). -/
structure InspectDto where
  s : String
  a : String
  d : String
  m : String
  refresh : Bool
  reply : Option Bool
  lowPriority : Bool
deriving DecidableEq, Repr

/-- How a call to `inspectItem` returns to its caller. -/
inductive AdmitOutcome where
  | cachedResp (v : Formatted)
  | queueFull (status : Nat)
  | ackBackground (ack : List (String × JsVal))
  | awaitWorker (a : String)
deriving DecidableEq, Repr

/-- The synchronous part of one `inspectItem` call. -/
structure AdmitResult where
  state : SvcState
  outcome : AdmitOutcome
  botContacted : Bool
deriving DecidableEq, Repr

/-- The acknowledgment object literal returned on the `reply === false` path
(inspect.service.ts:171-176). -/
def bgAck (a : String) : List (String × JsVal) :=
  [("success", .bool true),
   ("message", .str "Inspection request received and being processed in background"),
   ("assetId", .str a)]

/-- The queue entry built by `inspectItem` / `processInspectionInBackground`
for a request: owner id `m !== '0' && m ? m : s`, the proof token, a zero
retry count, the `{s, a, d, m}` inspect url, and the request's priority. -/
def mkQEntry (query : InspectDto) (background : Bool) : QEntry :=
  { ms := msOf query.s query.m
    d := query.d
    retryCount := 0
    urlS := query.s
    urlA := query.a
    urlD := query.d
    urlM := query.m
    priority := if query.lowPriority then .low else .normal
    background := background }

/-- Model of `inspectItem` (inspect.service.ts:144-233) up to its first suspension:
count the request, serve from cache unless `refresh`, reject when the queue
is full, acknowledge-and-enqueue when `reply === false`, else enqueue and
await the worker.  `botContacted` records whether
`workerManagerService.inspectItem` was invoked. -/
def inspectItem (st : SvcState) (query : InspectDto) : AdmitResult :=
  let st := { st with currentRequests := st.currentRequests + 1 }
  match (if query.refresh then none else checkCache st.db query.a query.d) with
  | some cachedAsset =>
    { state := { st with cached := st.cached + 1, mgrCached := st.mgrCached + 1 }
      outcome := .cachedResp cachedAsset
      botContacted := false }
  | none =>
    if qIsFull st.queue then
      { state := st, outcome := .queueFull 429, botContacted := false }
    else if query.reply = some false then
      { state := { st with
          queue := qAdd st.queue query.a (mkQEntry query true) }
        outcome := .ackBackground (bgAck query.a)
        botContacted := true }
    else
      { state := { st with
          queue := qAdd st.queue query.a (mkQEntry query false) }
        outcome := .awaitWorker query.a
        botContacted := true }

/-! ## The awaited request's completion and the asynchronous callbacks -/

/-- The promise handed back to a waiting caller; a JS promise settles once —
later `resolve`/`reject` calls are no-ops. -/
inductive Completion where
  | pending
  | resolved (v : Formatted)
  | rejected (message : String) (status : Nat)
deriving DecidableEq, Repr

/-- Model of `reject(...)` with settle-once semantics. -/
def settleReject (c : Completion) (msg : String) (status : Nat) : Completion :=
  match c with
  | .pending => .rejected msg status
  | c => c

/-- Model of `resolve(...)` with settle-once semantics. -/
def settleResolve (c : Completion) (v : Formatted) : Completion :=
  match c with
  | .pending => .resolved v
  | c => c

/-- The `setTimeout` callback of the awaited path (inspect.service.ts:181-184):
count a timeout and reject the caller with 504 — the queue entry is **not**
touched here. -/
def fgQueueTimeout (st : SvcState) (c : Completion) : SvcState × Completion :=
  ({ st with timeouts := st.timeouts + 1 },
   settleReject c "Inspection request timed out" 504)

/-- The awaited path's `.then` handler (inspect.service.ts:200-221):
count a success, persist via `handleInspectResult`; on the read-back failure
count a failure and reject with 500; either way remove the queue entry. -/
def fgWorkerSuccess (st : SvcState) (c : Completion) (a : String)
    (resp : InspectResponse) (ms d : String) : SvcState × Completion :=
  let st := { st with success := st.success + 1 }
  match handleInspectResult st.db resp ms d with
  | (db', some asset) =>
    ({ st with db := db', queue := qRemove st.queue a },
     settleResolve c (formatResponse asset))
  | (db', none) =>
    ({ st with db := db', failed := st.failed + 1, queue := qRemove st.queue a },
     settleReject c "Error processing inspection result" 500)

/-- The awaited path's `.catch` handler (inspect.service.ts:222-231):
count a failure, remove the entry, reject with 504. -/
def fgWorkerError (st : SvcState) (c : Completion) (a msg : String) :
    SvcState × Completion :=
  ({ st with failed := st.failed + 1, queue := qRemove st.queue a },
   settleReject c msg 504)

/-- The background path's `setTimeout` callback (inspect.service.ts:252-256):
count a timeout and remove the entry; the dummy completions are not invoked. -/
def bgQueueTimeout (st : SvcState) (a : String) : SvcState :=
  { st with timeouts := st.timeouts + 1, queue := qRemove st.queue a }

/-- The background path's `.then` handler (inspect.service.ts:264-276):
persist, then remove the entry; no counter moves. -/
def bgWorkerSuccess (st : SvcState) (a : String) (resp : InspectResponse)
    (ms d : String) : SvcState :=
  { st with db := (handleInspectResult st.db resp ms d).1
            queue := qRemove st.queue a }

/-- The background path's `.catch` handler (inspect.service.ts:277-280):
remove the entry. -/
def bgWorkerError (st : SvcState) (a : String) : SvcState :=
  { st with queue := qRemove st.queue a }

/-! ## C4 — the `reply === false` acknowledgment -/

/-- Claim C4, counterexample.  The acknowledgment object returned on the
`reply=false` path has no `accepted` property at all — its success flag is
the `success` property — so the claim's `accepted:true` field is absent. -/
theorem c4_ack_has_no_accepted_field :
    (inspectItem ⟨[], [], 0, 0, 0, 0, 0, 0, ⟨[], []⟩⟩
        ⟨"76561198023809011", "123", "456", "0", false, some false, false⟩).outcome =
      .ackBackground (bgAck "123") ∧
    (bgAck "123").lookup "accepted" = none ∧
    (bgAck "123").lookup "success" = some (.bool true) := by
  decide

/-- Claim C4, amended.  For every request with `reply === false` that passes the
cache-miss and queue-not-full checks, `inspectItem` returns immediately an
acknowledgment object containing `success: true` and the `assetId`, the
request is enqueued, and the worker manager is invoked so the inspection
continues in the background. -/
theorem c4_background_ack (st : SvcState) (query : InspectDto)
    (hmiss : (if query.refresh then none
              else checkCache st.db query.a query.d) = none)
    (hfull : qIsFull st.queue = false)
    (hreply : query.reply = some false) :
    (inspectItem st query).outcome = .ackBackground (bgAck query.a) ∧
    (bgAck query.a).lookup "success" = some (.bool true) ∧
    (bgAck query.a).lookup "assetId" = some (.str query.a) ∧
    (inspectItem st query).botContacted = true ∧
    (inspectItem st query).state.queue =
      qAdd st.queue query.a (mkQEntry query true) := by
  unfold inspectItem
  simp only [hmiss, hfull, hreply, Bool.false_eq_true, if_false]
  exact ⟨rfl, rfl, rfl, rfl, rfl⟩

/-- Witness for the amended C4 at a concrete request against an empty state. -/
theorem c4_background_ack_witness :
    (inspectItem ⟨[], [], 0, 0, 0, 0, 0, 0, ⟨[], []⟩⟩
        ⟨"7656", "99", "5", "0", false, some false, true⟩).outcome =
      .ackBackground (bgAck "99") ∧
    (bgAck "99").lookup "success" = some (.bool true) ∧
    (bgAck "99").lookup "assetId" = some (.str "99") ∧
    (inspectItem ⟨[], [], 0, 0, 0, 0, 0, 0, ⟨[], []⟩⟩
        ⟨"7656", "99", "5", "0", false, some false, true⟩).botContacted = true ∧
    (inspectItem ⟨[], [], 0, 0, 0, 0, 0, 0, ⟨[], []⟩⟩
        ⟨"7656", "99", "5", "0", false, some false, true⟩).state.queue =
      qAdd [] "99" (mkQEntry ⟨"7656", "99", "5", "0", false, some false, true⟩ true) :=
  c4_background_ack ⟨[], [], 0, 0, 0, 0, 0, 0, ⟨[], []⟩⟩
    ⟨"7656", "99", "5", "0", false, some false, true⟩ (by decide) (by decide) rfl

/-! ## C5 — queue-timeout behavior -/

/-- A queued foreground entry used by the C5 counterexample. -/
def c5Entry : QEntry :=
  { ms := "7656", d := "1", retryCount := 0, urlS := "7656", urlA := "123"
    urlD := "1", urlM := "0", priority := .normal, background := false }

/-- A state with the single awaited entry `123` in the queue. -/
def c5State : SvcState :=
  { inspects := [], queue := [("123", c5Entry)], currentRequests := 1
    success := 0, cached := 0, failed := 0, timeouts := 0, mgrCached := 0
    db := ⟨[], []⟩ }

/-- Claim C5, counterexample.  When the deadline of the awaited entry `123`
fires, the timeout callback increments `timeouts` and rejects the caller, but
the entry is **still in the queue** — the claim's "the entry is removed from
the queue" is false on the awaited path (removal only happens when the worker
promise settles). -/
theorem c5_timeout_leaves_entry_queued :
    (fgQueueTimeout c5State .pending).1.timeouts = 1 ∧
    (fgQueueTimeout c5State .pending).2 =
      .rejected "Inspection request timed out" 504 ∧
    ((fgQueueTimeout c5State .pending).1.queue.lookup "123").isSome = true ∧
    (fgQueueTimeout c5State .pending).1.queue = c5State.queue := by
  decide

/-- Removing an asset id leaves no queue entry for it to look up. -/
theorem lookup_qRemove_self (q : List (String × QEntry)) (a : String) :
    (qRemove q a).lookup a = none := by
  induction q with
  | nil => rfl
  | cons p rest ih =>
    obtain ⟨k, v⟩ := p
    by_cases hp : k = a
    · simpa [qRemove, List.filter_cons, hp] using ih
    · have hne : (a == k) = false := beq_eq_false_iff_ne.mpr (Ne.symm hp)
      simpa [qRemove, List.filter_cons, hp, List.lookup, hne] using ih

/-- Claim C5, amended.  On expiry of the `QUEUE_TIMEOUT` deadline
(default 10000 ms) of an awaited entry, the waiting completion receives the
timeout rejection surfaced as HTTP 504 and the `timeouts` counter increments,
but the entry stays in the queue untouched; on the background path the expiry
callback increments `timeouts` and removes the entry, notifying no completion. -/
theorem c5_timeout_behavior (st : SvcState) (c : Completion) (a : String)
    (hpending : c = .pending) :
    QUEUE_TIMEOUT = 10000 ∧
    (fgQueueTimeout st c).1.timeouts = st.timeouts + 1 ∧
    (fgQueueTimeout st c).2 = .rejected "Inspection request timed out" 504 ∧
    (fgQueueTimeout st c).1.queue = st.queue ∧
    (bgQueueTimeout st a).timeouts = st.timeouts + 1 ∧
    (bgQueueTimeout st a).queue = qRemove st.queue a ∧
    ((bgQueueTimeout st a).queue.lookup a) = none := by
  subst hpending
  exact ⟨rfl, rfl, rfl, rfl, rfl, rfl, lookup_qRemove_self st.queue a⟩

/-- Witness for the amended C5 at the concrete queued state `c5State`. -/
theorem c5_timeout_behavior_witness :
    QUEUE_TIMEOUT = 10000 ∧
    (fgQueueTimeout c5State .pending).1.timeouts = c5State.timeouts + 1 ∧
    (fgQueueTimeout c5State .pending).2 =
      .rejected "Inspection request timed out" 504 ∧
    (fgQueueTimeout c5State .pending).1.queue = c5State.queue ∧
    (bgQueueTimeout c5State "123").timeouts = c5State.timeouts + 1 ∧
    (bgQueueTimeout c5State "123").queue = qRemove c5State.queue "123" ∧
    ((bgQueueTimeout c5State "123").queue.lookup "123") = none :=
  c5_timeout_behavior c5State .pending "123" rfl

/-! ## C6 — admission control at queue capacity -/

/-- A generic queued entry used to fill the queue in the C6 boundary
scenario. -/
def c6Entry : QEntry :=
  { ms := "7656", d := "1", retryCount := 0, urlS := "7656", urlA := "0"
    urlD := "1", urlM := "0", priority := .normal, background := false }

/-- A queue holding `n` entries with distinct asset ids `"0" … "n-1"`. -/
def fillQueue (n : Nat) : List (String × QEntry) :=
  (List.range n).map (fun i => (toString i, c6Entry))

/-- A service state with the given queue and an empty store. -/
def c6State (q : List (String × QEntry)) : SvcState :=
  { inspects := [], queue := q, currentRequests := 0, success := 0
    cached := 0, failed := 0, timeouts := 0, mgrCached := 0, db := ⟨[], []⟩ }

/-- An awaited (reply unset) request for asset `a` with a cold cache. -/
def c6Query (a : String) : InspectDto :=
  { s := "76561198023809011", a := a, d := "42", m := "0"
    refresh := false, reply := none, lowPriority := false }

/-- Claim C6.  A call that is not served from cache fails with `QueueFull`
carrying HTTP 429 exactly when the queue holds `MAX_QUEUE_SIZE` (default 100)
entries, in which case no bot is contacted and the queue is unchanged; at the
boundary, with 99 queued entries the 100th submission is still admitted
(bringing the queue to 100) and the 101st is rejected. -/
theorem c6_queue_full_admission (st : SvcState) (query : InspectDto)
    (hmiss : (if query.refresh then none
              else checkCache st.db query.a query.d) = none) :
    MAX_QUEUE_SIZE = 100 ∧
    ((inspectItem st query).outcome = .queueFull 429 ↔ qIsFull st.queue = true) ∧
    (qIsFull st.queue = true →
      (inspectItem st query).botContacted = false ∧
      (inspectItem st query).state.queue = st.queue) ∧
    (inspectItem (c6State (fillQueue 99)) (c6Query "99")).outcome =
      .awaitWorker "99" ∧
    qSize (inspectItem (c6State (fillQueue 99)) (c6Query "99")).state.queue = 100 ∧
    (inspectItem (inspectItem (c6State (fillQueue 99)) (c6Query "99")).state
      (c6Query "100")).outcome = .queueFull 429 ∧
    (inspectItem (inspectItem (c6State (fillQueue 99)) (c6Query "99")).state
      (c6Query "100")).botContacted = false := by
  refine ⟨rfl, ?_, ?_, by decide, by decide, by decide, by decide⟩
  · constructor
    · intro hout
      by_contra hfull
      have hfull' : qIsFull st.queue = false := by
        cases h : qIsFull st.queue
        · rfl
        · exact absurd h hfull
      revert hout
      unfold inspectItem
      simp only [hmiss, hfull', Bool.false_eq_true, if_false]
      by_cases hreply : query.reply = some false <;> simp [hreply]
    · intro hfull
      unfold inspectItem
      simp only [hmiss, hfull, if_true]
  · intro hfull
    unfold inspectItem
    simp only [hmiss, hfull, if_true]
    exact ⟨trivial, trivial⟩

/-- Witness for C6 with an empty queue and a cold cache. -/
theorem c6_queue_full_admission_witness :
    MAX_QUEUE_SIZE = 100 ∧
    ((inspectItem (c6State []) (c6Query "7")).outcome = .queueFull 429 ↔
      qIsFull (c6State []).queue = true) ∧
    (qIsFull (c6State []).queue = true →
      (inspectItem (c6State []) (c6Query "7")).botContacted = false ∧
      (inspectItem (c6State []) (c6Query "7")).state.queue = (c6State []).queue) ∧
    (inspectItem (c6State (fillQueue 99)) (c6Query "99")).outcome =
      .awaitWorker "99" ∧
    qSize (inspectItem (c6State (fillQueue 99)) (c6Query "99")).state.queue = 100 ∧
    (inspectItem (inspectItem (c6State (fillQueue 99)) (c6Query "99")).state
      (c6Query "100")).outcome = .queueFull 429 ∧
    (inspectItem (inspectItem (c6State (fillQueue 99)) (c6Query "99")).state
      (c6Query "100")).botContacted = false :=
  c6_queue_full_admission (c6State []) (c6Query "7") (by decide)

/-! ## C10 — the cache lookup is independent of the proof token `d` -/

/-- Claim C10.  `checkCache` queries only by `assetId`: any two proof tokens
yield the same record; consequently a request with `refresh` unset whose
asset is cached is answered from the cache with the identical record no
matter which `d` it carries — the proof token is never validated. -/
theorem c10_cache_ignores_proof_token :
    (∀ (db : DB) (a d1 d2 : String), checkCache db a d1 = checkCache db a d2) ∧
    (∀ (st : SvcState) (q : InspectDto) (dalt : String) (v : Formatted),
      q.refresh = false →
      checkCache st.db q.a q.d = some v →
      checkCache st.db q.a dalt = some v ∧
      (inspectItem st q).outcome = .cachedResp v ∧
      (inspectItem st { q with d := dalt }).outcome = .cachedResp v) := by
  refine ⟨fun db a d1 d2 => rfl, ?_⟩
  intro st q dalt v hr hc
  have hc' : checkCache st.db q.a dalt = some v := hc
  refine ⟨hc', ?_, ?_⟩
  · unfold inspectItem
    simp only [hr, Bool.false_eq_true, if_false, hc]
  · unfold inspectItem
    simp only [hr, Bool.false_eq_true, if_false, hc']

/-- Witness for C10: the asset cached as `c2PriorAsset` is served for two
different proof tokens. -/
theorem c10_cache_ignores_proof_token_witness :
    checkCache (DB.mk [c2PriorAsset] []) "35678726740" "1111" =
      some (formatResponse c2PriorAsset) ∧
    (inspectItem (c6State []) (c6Query "7")).outcome =
      (inspectItem (c6State []) (c6Query "7")).outcome ∧
    checkCache (DB.mk [c2PriorAsset] []) "35678726740" "2222" =
      some (formatResponse c2PriorAsset) ∧
    (inspectItem
        { c6State [] with db := DB.mk [c2PriorAsset] [] }
        { c6Query "35678726740" with d := "1111" }).outcome =
      .cachedResp (formatResponse c2PriorAsset) ∧
    (inspectItem
        { c6State [] with db := DB.mk [c2PriorAsset] [] }
        { c6Query "35678726740" with d := "2222" }).outcome =
      .cachedResp (formatResponse c2PriorAsset) := by
  have h := c10_cache_ignores_proof_token.2
    { c6State [] with db := DB.mk [c2PriorAsset] [] }
    { c6Query "35678726740" with d := "1111" } "2222"
    (formatResponse c2PriorAsset) rfl (by decide)
  exact ⟨by decide, rfl, by decide, h.2.1, h.2.2⟩

/-! ## C9 — the `inspects` map is never populated -/

/-- Model of `stats().service.queue.current` (inspect.service.ts:111-115): the size of
the service's `inspects` map. -/
def statsQueueCurrent (st : SvcState) : Nat := st.inspects.length

/-- The state of a freshly constructed `InspectService` over a store:
all counters zero, both maps empty. -/
def svcInit (db : DB) : SvcState :=
  { inspects := [], queue := [], currentRequests := 0, success := 0
    cached := 0, failed := 0, timeouts := 0, mgrCached := 0, db := db }

/-- One state mutation of the service: an `inspectItem` admission or any of
the asynchronous callbacks it registers. -/
inductive SvcStep : SvcState → SvcState → Prop where
  | request (query : InspectDto) (st : SvcState) :
      SvcStep st (inspectItem st query).state
  | fgTimeout (c : Completion) (st : SvcState) :
      SvcStep st (fgQueueTimeout st c).1
  | fgSuccess (c : Completion) (a : String) (resp : InspectResponse)
      (ms d : String) (st : SvcState) :
      SvcStep st (fgWorkerSuccess st c a resp ms d).1
  | fgError (c : Completion) (a msg : String) (st : SvcState) :
      SvcStep st (fgWorkerError st c a msg).1
  | bgTimeout (a : String) (st : SvcState) : SvcStep st (bgQueueTimeout st a)
  | bgSuccess (a : String) (resp : InspectResponse) (ms d : String)
      (st : SvcState) : SvcStep st (bgWorkerSuccess st a resp ms d)
  | bgError (a : String) (st : SvcState) : SvcStep st (bgWorkerError st a)

/-- No admission branch touches the `inspects` map. -/
theorem inspectItem_inspects (st : SvcState) (q : InspectDto) :
    (inspectItem st q).state.inspects = st.inspects := by
  unfold inspectItem
  dsimp only
  repeat (first | rfl | split)

/-- No service operation touches the `inspects` map. -/
theorem SvcStep.inspects_eq {st st' : SvcState} (h : SvcStep st st') :
    st'.inspects = st.inspects := by
  cases h with
  | request query st => exact inspectItem_inspects st query
  | fgTimeout c st => rfl
  | fgSuccess c a resp ms d st =>
    unfold fgWorkerSuccess
    dsimp only
    split <;> rfl
  | fgError c a msg st => rfl
  | bgTimeout a st => rfl
  | bgSuccess a resp ms d st => rfl
  | bgError a st => rfl

/-- Claim C9.  In every reachable state of the service the `inspects` map is
empty — no operation ever inserts into it — so the `stats()` response reports
`service.queue.current = 0`. -/
theorem c9_stats_queue_current_zero (db : DB) (s : SvcState)
    (h : Relation.ReflTransGen SvcStep (svcInit db) s) :
    s.inspects = [] ∧ statsQueueCurrent s = 0 := by
  induction h with
  | refl => exact ⟨rfl, rfl⟩
  | tail _ hstep ih =>
    have he := SvcStep.inspects_eq hstep
    refine ⟨he.trans ih.1, ?_⟩
    show _ = 0
    rw [statsQueueCurrent, he, ih.1]
    rfl

/-- Witness for C9 at the initial state itself. -/
theorem c9_stats_queue_current_zero_witness :
    (svcInit ⟨[], []⟩).inspects = [] ∧ statsQueueCurrent (svcInit ⟨[], []⟩) = 0 :=
  c9_stats_queue_current_zero ⟨[], []⟩ (svcInit ⟨[], []⟩) Relation.ReflTransGen.refl

/-! ## C8 — the worker shard's account initialization (BotWorker.initializeBots) -/

/-- The transport outcome of one `bot.initialize()` attempt. -/
inductive InitOutcome where
  | success | accountDisabled | loginThrottled | otherError
deriving DecidableEq, Repr

/-- Model of `THROTTLE_COOLDOWN = 30 * 60 * 1000` — 30 minutes in ms. -/
def THROTTLE_COOLDOWN : Nat := 30 * 60 * 1000

/-- Model of `parseInt(process.env.MAX_RETRIES || '3')`. -/
def MAX_RETRIES (env : Option Nat) : Nat := env.getD 3

/-- Model of `account.indexOf(':')` with `substring(0, i)` / `substring(i + 1)`: split
at the first colon (passwords may contain colons); a line with no colon
yields the empty username (`substring(0, -1)`) and the line itself. -/
def splitAccount (account : String) : String × String :=
  match account.data.findIdx? (fun ch => ch = ':') with
  | some i => (⟨account.data.take i⟩, ⟨account.data.drop (i + 1)⟩)
  | none => ("", account)

/-- How the `while (retryCount < MAX_RETRIES && !initialized)` loop ends. -/
inductive LoopResult where
  | initialized | disabled | throttledStop | exhausted
deriving DecidableEq, Repr

/-- The retry loop of `initializeBots` (worker file, lines 594-715), driven
by the oracle giving each attempt's transport outcome: success initializes,
`ACCOUNT_DISABLED` and `LOGIN_THROTTLED` `break`, any other failure retries.
Returns how the loop ended together with the number of attempts made;
`fuel` is the number of retries still allowed. -/
def initLoopAux (attempt : Nat → InitOutcome) (retryCount : Nat) :
    Nat → LoopResult × Nat
  | 0 => (.exhausted, 0)
  | fuel + 1 =>
    match attempt retryCount with
    | .success => (.initialized, 1)
    | .accountDisabled => (.disabled, 1)
    | .loginThrottled => (.throttledStop, 1)
    | .otherError =>
      let r := initLoopAux attempt (retryCount + 1) fuel
      (r.1, r.2 + 1)

/-- The whole retry loop, starting at `retryCount = 0`. -/
def initLoop (attempt : Nat → InitOutcome) (maxR : Nat) : LoopResult × Nat :=
  initLoopAux attempt 0 maxR

/-- The shard state the initialization sweep mutates: the bot table, the
`accounts` partition, and the throttle map (username → expiry). -/
structure WorkerState where
  bots : List String
  accounts : List String
  throttled : List (String × Nat)
deriving DecidableEq, Repr

/-- The skip test at the top of the per-account loop:
`throttleExpiry && Date.now() < throttleExpiry`. -/
def throttleSkip (now : Nat) (st : WorkerState) (username : String) : Bool :=
  match st.throttled.lookup username with
  | some expiry => now < expiry
  | none => false

/-- The body of the `for (const account of this.accounts)` loop of
`initializeBots`: skip accounts still in throttle cooldown; otherwise run the
retry loop and apply its terminal action — register the bot and clear the
throttle mark on success, drop every account line starting with the username
on `ACCOUNT_DISABLED`, mark the account throttled until
`now + THROTTLE_COOLDOWN` on `LOGIN_THROTTLED`, nothing after exhausting the
retries.  Also returns the number of attempts made. -/
def processAccount (now : Nat) (oracle : String → Nat → InitOutcome)
    (maxR : Nat) (st : WorkerState) (account : String) : WorkerState × Nat :=
  let username := (splitAccount account).1
  if throttleSkip now st username then (st, 0)
  else
    let r := initLoop (oracle username) maxR
    match r.1 with
    | .initialized =>
      ({ st with
          bots := if st.bots.contains username then st.bots
                  else st.bots ++ [username]
          throttled := st.throttled.filter (fun p => p.1 ≠ username) }, r.2)
    | .disabled =>
      ({ st with
          accounts := st.accounts.filter
            (fun acc => ¬ acc.startsWith username) }, r.2)
    | .throttledStop =>
      ({ st with
          throttled := (username, now + THROTTLE_COOLDOWN) ::
            st.throttled.filter (fun p => p.1 ≠ username) }, r.2)
    | .exhausted => (st, r.2)

/-- Model of `initializeBots`: the sweep over the account partition.  The
`for` iteration walks the list as read at loop entry even though the
`accounts` field may be filtered mid-sweep. -/
def initializeBots (now : Nat) (oracle : String → Nat → InitOutcome)
    (maxR : Nat) (st : WorkerState) : WorkerState :=
  st.accounts.foldl (fun s account => (processAccount now oracle maxR s account).1) st

/-- The loop makes at most `fuel` attempts. -/
theorem initLoopAux_attempts_le (attempt : Nat → InitOutcome) :
    ∀ (fuel retryCount : Nat), (initLoopAux attempt retryCount fuel).2 ≤ fuel := by
  intro fuel
  induction fuel with
  | zero => intro rc; exact Nat.le_refl 0
  | succ f ih =>
    intro rc
    unfold initLoopAux
    cases attempt rc with
    | success => exact Nat.succ_le_succ (Nat.zero_le f)
    | accountDisabled => exact Nat.succ_le_succ (Nat.zero_le f)
    | loginThrottled => exact Nat.succ_le_succ (Nat.zero_le f)
    | otherError => exact Nat.succ_le_succ (ih (rc + 1))

/-- The terminal loop result of a decisive transport outcome. -/
def terminalOf : InitOutcome → LoopResult
  | .success => .initialized
  | .accountDisabled => .disabled
  | .loginThrottled => .throttledStop
  | .otherError => .exhausted

/-- If the first `k` attempts fail transiently and attempt `k` (0-based) is
decisive, the loop stops with that outcome after exactly `k + 1` attempts. -/
theorem initLoopAux_terminal (attempt : Nat → InitOutcome) :
    ∀ (k retryCount fuel : Nat), k < fuel →
      (∀ j, j < k → attempt (retryCount + j) = .otherError) →
      attempt (retryCount + k) ≠ .otherError →
      initLoopAux attempt retryCount fuel =
        (terminalOf (attempt (retryCount + k)), k + 1) := by
  intro k
  induction k with
  | zero =>
    intro rc fuel hk hprev hne
    match fuel, hk with
    | fuel + 1, _ =>
      unfold initLoopAux
      rw [Nat.add_zero] at hne ⊢
      cases h : attempt rc with
      | success => simp [terminalOf, h]
      | accountDisabled => simp [terminalOf, h]
      | loginThrottled => simp [terminalOf, h]
      | otherError => exact absurd h hne
  | succ k ih =>
    intro rc fuel hk hprev hne
    match fuel, hk with
    | fuel + 1, hk =>
      have h0 : attempt rc = .otherError := by
        have := hprev 0 (Nat.succ_pos k)
        rwa [Nat.add_zero] at this
      unfold initLoopAux
      rw [h0]
      have harg : rc + (k + 1) = rc + 1 + k := by omega
      have hrec : initLoopAux attempt (rc + 1) fuel =
          (terminalOf (attempt (rc + 1 + k)), k + 1) := by
        refine ih (rc + 1) fuel (Nat.lt_of_succ_lt_succ hk) ?_ ?_
        · intro j hj
          have := hprev (j + 1) (Nat.succ_lt_succ hj)
          have he : rc + (j + 1) = rc + 1 + j := by omega
          rwa [he] at this
        · rwa [harg] at hne
      rw [harg, hrec]

/-- Each loop-body application only removes account lines. -/
theorem processAccount_accounts_subset (now : Nat)
    (oracle : String → Nat → InitOutcome) (maxR : Nat) (st : WorkerState)
    (account : String) :
    (processAccount now oracle maxR st account).1.accounts ⊆ st.accounts := by
  unfold processAccount
  dsimp only
  split
  · exact fun x hx => hx
  · split
    · exact fun x hx => hx
    · exact fun x hx => (List.mem_filter.mp hx).1
    · exact fun x hx => hx
    · exact fun x hx => hx

/-- Folding the loop body over any account list only removes lines. -/
theorem foldl_accounts_subset (now : Nat)
    (oracle : String → Nat → InitOutcome) (maxR : Nat) :
    ∀ (l : List String) (s : WorkerState),
      (l.foldl (fun s account => (processAccount now oracle maxR s account).1)
        s).accounts ⊆ s.accounts := by
  intro l
  induction l with
  | nil => intro s x hx; exact hx
  | cons account rest ih =>
    intro s x hx
    rw [List.foldl_cons] at hx
    exact processAccount_accounts_subset now oracle maxR s account
      (ih ((processAccount now oracle maxR s account).1) hx)

/-- The whole sweep only removes account lines. -/
theorem initializeBots_accounts_subset (now : Nat)
    (oracle : String → Nat → InitOutcome) (maxR : Nat) (st : WorkerState) :
    (initializeBots now oracle maxR st).accounts ⊆ st.accounts :=
  foldl_accounts_subset now oracle maxR st.accounts st

/-- Claim C8.  During shard initialization each account is attempted at most
`MAX_RETRIES` (default 3) times; a throttled account is skipped without an
attempt; when the first decisive outcome is `ACCOUNT_DISABLED` the account is
dropped from the shard's partition with no further retries; when it is
`LOGIN_THROTTLED` the account is marked throttled until
`now + 30 minutes` with no further retries; and the sweep never re-adds
dropped accounts. -/
theorem c8_initialization_retry_policy (now : Nat)
    (oracle : String → Nat → InitOutcome) (env : Option Nat) (st : WorkerState)
    (account : String) :
    MAX_RETRIES none = 3 ∧
    THROTTLE_COOLDOWN = 30 * 60 * 1000 ∧
    (processAccount now oracle (MAX_RETRIES env) st account).2 ≤ MAX_RETRIES env ∧
    (throttleSkip now st (splitAccount account).1 = true →
      processAccount now oracle (MAX_RETRIES env) st account = (st, 0)) ∧
    (∀ k, k < MAX_RETRIES env →
      (∀ j, j < k → oracle (splitAccount account).1 j = .otherError) →
      throttleSkip now st (splitAccount account).1 = false →
      (oracle (splitAccount account).1 k = .accountDisabled →
        (processAccount now oracle (MAX_RETRIES env) st account).2 = k + 1 ∧
        ∀ acc ∈ (processAccount now oracle (MAX_RETRIES env) st account).1.accounts,
          ¬ acc.startsWith (splitAccount account).1) ∧
      (oracle (splitAccount account).1 k = .loginThrottled →
        (processAccount now oracle (MAX_RETRIES env) st account).2 = k + 1 ∧
        (processAccount now oracle (MAX_RETRIES env) st account).1.throttled.lookup
          (splitAccount account).1 = some (now + THROTTLE_COOLDOWN))) ∧
    (initializeBots now oracle (MAX_RETRIES env) st).accounts ⊆ st.accounts := by
  refine ⟨rfl, rfl, ?_, ?_, ?_, initializeBots_accounts_subset now oracle _ st⟩
  · unfold processAccount
    dsimp only
    split
    · exact Nat.zero_le _
    · split <;> exact initLoopAux_attempts_le _ _ _
  · intro hskip
    unfold processAccount
    dsimp only
    rw [hskip]
    simp
  · intro k hk hprev hskip
    constructor
    · intro hdec
      have hloop : initLoop (oracle (splitAccount account).1) (MAX_RETRIES env) =
          (.disabled, k + 1) := by
        unfold initLoop
        have := initLoopAux_terminal (oracle (splitAccount account).1) k 0
          (MAX_RETRIES env) hk
          (by intro j hj; simpa using hprev j hj)
          (by simp [hdec])
        simpa [hdec, terminalOf] using this
      constructor
      · unfold processAccount
        dsimp only
        rw [hskip]
        simp only [Bool.false_eq_true, if_false, hloop]
      · intro acc hacc
        unfold processAccount at hacc
        dsimp only at hacc
        rw [hskip] at hacc
        simp only [Bool.false_eq_true, if_false, hloop] at hacc
        simpa using (List.mem_filter.mp hacc).2
    · intro hdec
      have hloop : initLoop (oracle (splitAccount account).1) (MAX_RETRIES env) =
          (.throttledStop, k + 1) := by
        unfold initLoop
        have := initLoopAux_terminal (oracle (splitAccount account).1) k 0
          (MAX_RETRIES env) hk
          (by intro j hj; simpa using hprev j hj)
          (by simp [hdec])
        simpa [hdec, terminalOf] using this
      constructor
      · unfold processAccount
        dsimp only
        rw [hskip]
        simp only [Bool.false_eq_true, if_false, hloop]
      · unfold processAccount
        dsimp only
        rw [hskip]
        simp only [Bool.false_eq_true, if_false, hloop]
        simp [List.lookup]

/-- The oracle of the C8 witness: `bob`'s first attempt fails transiently,
the second reports `ACCOUNT_DISABLED`; `carol` is throttled on her first
attempt. -/
def c8Oracle : String → Nat → InitOutcome :=
  fun username k =>
    if username = "bob" then
      (if k = 0 then .otherError else .accountDisabled)
    else if username = "carol" then .loginThrottled
    else .success

/-- The shard partition of the C8 witness. -/
def c8State : WorkerState :=
  { bots := [], accounts := ["bob:hunter2", "carol:pw:with:colons"], throttled := [] }

/-- Witness for C8: `bob` is dropped after exactly two attempts, `carol` is
throttled until `now + 30 min` after one. -/
theorem c8_initialization_retry_policy_witness :
    MAX_RETRIES none = 3 ∧
    (processAccount 1000 c8Oracle 3 c8State "bob:hunter2").2 = 2 ∧
    (∀ acc ∈ (processAccount 1000 c8Oracle 3 c8State "bob:hunter2").1.accounts,
      ¬ acc.startsWith "bob") ∧
    (processAccount 1000 c8Oracle 3 c8State "carol:pw:with:colons").2 = 1 ∧
    (processAccount 1000 c8Oracle 3 c8State
      "carol:pw:with:colons").1.throttled.lookup "carol" =
      some (1000 + THROTTLE_COOLDOWN) := by
  have hb := c8_initialization_retry_policy 1000 c8Oracle none c8State "bob:hunter2"
  have hc := c8_initialization_retry_policy 1000 c8Oracle none c8State
    "carol:pw:with:colons"
  have hbd := (hb.2.2.2.2.1 1 (by decide) (by decide) (by decide)).1 (by decide)
  have hct := (hc.2.2.2.2.1 0 (by decide) (by decide) (by decide)).2 (by decide)
  exact ⟨hb.1, hbd.1, fun acc hacc => hbd.2 acc hacc, hct.1, hct.2⟩
